import Mathlib

/-!
# Verification of the CuyFI on-chain transaction orchestration layer

Shallow embedding of `src/agent/src/utils/wallet_manager.py` (class
`WalletManager`) and of `src/agent/src/config.py` / `src/agent/src/tools.py`
(chain-id configuration).

Modelling conventions:
* Python `float` amounts are modelled as exact rationals (`ℚ`); every Python
  float is a rational, and the claims under study are settled at inputs where
  the float arithmetic involved is exact.
* Each RPC interaction of one operation run is modelled by a `ChainEnv`
  oracle holding the node's responses, and the operation records the network
  calls it makes in an explicit event trace, the transactions it builds in a
  list, and the values it prints in a structured log list.
* The transaction hash returned by `send_raw_transaction` is a network
  response, so it is environment data (`ChainEnv.txHash`), not a function of
  the signed payload.
-/

/-- Python `int(x)` applied to a real-valued quantity: truncation toward
zero (`math.trunc`), i.e. floor for nonnegative inputs and ceiling for
negative ones. -/
def pyInt (q : ℚ) : ℤ := if 0 ≤ q then ⌊q⌋ else ⌈q⌉

/-- `int(amount * (10 ** decimals))`, the human-units → base-units
conversion as written in `send_erc20` (line 358), `approve_token`
(line 509), `supply_to_aave` (line 648) and `deposit` (line 812). -/
def toBaseUnits (amount : ℚ) (decimals : ℕ) : ℤ :=
  pyInt (amount * (10 : ℚ) ^ decimals)

/-- `balance_raw / (10 ** decimals)`, the base-units → human-units
conversion as written in `get_token_balance` (line 144), `send_erc20`
(line 349), `supply_to_aave` (line 647), `deposit` (line 811) and
`redeem` (line 1047). -/
def fromBaseUnits (raw : ℤ) (decimals : ℕ) : ℚ :=
  (raw : ℚ) / (10 : ℚ) ^ decimals

/-- Modelled from the spec: the spec's stated conversion
`round(amount * 10^decimals)` — rounding to the nearest integer — used only
to compare the spec's words with the source's `toBaseUnits`. -/
def specRoundBaseUnits (amount : ℚ) (decimals : ℕ) : ℤ :=
  round (amount * (10 : ℚ) ^ decimals)

/-- `Config.CHAIN_ID` (config.py line 28):
`int(os.getenv("CHAIN_ID", "1")) if os.getenv("CHAIN_ID") else None`.
`chainIdVar` is the raw environment variable (`none` = unset); an unset or
empty variable is falsy, so the conditional takes the `None` branch and the
`"1"` default inside `os.getenv` is dead.  `int(...)` is modelled by
`String.toInt?` (the strings at issue are numeric). -/
def config_CHAIN_ID (chainIdVar : Option String) : Option ℤ :=
  if (chainIdVar.getD "") ≠ "" then (chainIdVar.getD "1").toInt? else none

/-- `chain_id = Config.CHAIN_ID or 1` (tools.py line 188): Python `or`
returns the right operand when the left is falsy (`None` or `0`). -/
def effective_chain_id (cfg : Option ℤ) : ℤ :=
  match cfg with
  | none => 1
  | some v => if v = 0 then 1 else v

/-- Receipt returned by `wait_for_transaction_receipt`. -/
structure Receipt where
  status : ℕ
  blockNumber : ℕ
  gasUsed : ℕ
deriving DecidableEq, Repr

/-- Tags distinguishing, inside one outer operation run, the events of the
outer operation from those of the `approve_token` sub-operation that
`supply_to_aave` / `deposit` may run first. -/
inductive OpTag where
  | main
  | approveSub
deriving DecidableEq, Repr

/-- One network interaction of an operation run, in program order. -/
inductive Event where
  | queryBalance
  | querySymbol (tag : OpTag)
  | queryTokenBalance
  | queryAllowance
  | querySharesBalance
  | queryGasPrice (tag : OpTag)
  | queryNonce (tag : OpTag)
  | sign (tag : OpTag)
  | broadcast (tag : OpTag)
  | waitReceipt (tag : OpTag)
  | queryPostBalance
deriving DecidableEq, Repr

/-- The contract call encoded into the transaction's data field. -/
inductive CallData where
  | nativeTransfer
  | transferCall (toAddr : String) (amountUnits : ℤ)
  | approveCall (spender : String) (amountUnits : ℤ)
  | supplyCall (asset : String) (amountUnits : ℤ) (onBehalfOf : String)
      (referralCode : ℕ)
  | depositCall (assets : ℤ) (receiver : String)
  | redeemCall (shares : ℤ) (receiver : String) (owner : String)
deriving DecidableEq, Repr

/-- An unsigned transaction as assembled by `build_transaction` / the
`tx` dict of `send_eth`. -/
structure UnsignedTx where
  sender : String
  recipient : String
  value : ℤ
  callData : CallData
  gas : ℕ
  gasPrice : ℕ
  nonce : ℕ
  chainId : ℕ
deriving DecidableEq, Repr

/-- One `print` of an operation run, with the dynamic values it
interpolates. -/
inductive LogEntry where
  | preparingSend (sender toAddr : String) (amountEth : ℚ) (gasPriceWei : ℕ)
  | preparingTransfer (sender toAddr : String) (amount : ℚ) (symbol : String)
  | preparingApprove (token spender : String) (amountStr symbol : String)
  | preparingSupply (pool asset symbol : String) (amount : ℚ)
      (onBehalfOf : String) (referralCode : ℕ)
  | preparingDeposit (contractAddr token symbol : String) (assets : ℚ)
      (receiver : String)
  | preparingRedeem (contractAddr token symbol : String) (shares : ℚ)
      (receiver owner : String)
  | approvalInsufficient
  | txSigned
  | txSent (hash : ℕ)
  | txStatus (status : String)
  | blockInfo (blockNumber gasUsed : ℕ)
  | sharesReceived (n : ℕ)
  | assetsReceived (q : ℚ)
  | balanceError
deriving DecidableEq, Repr

/-- The distinguishable error kinds raised by the operations (each a
`ValueError` with its own message in the source). -/
inductive WErr where
  | insufficientBalance
  | insufficientShares
  | approvalFailed
deriving DecidableEq, Repr

/-- The complete observable behaviour of one operation run: its returned
(or raised) outcome, the network events it performed, the unsigned
transactions it built, and the log lines it printed. -/
structure Run (R : Type) where
  result : Except WErr R
  events : List Event
  builtTxs : List UnsignedTx
  logs : List LogEntry
deriving Repr

/-- The wallet state held by `WalletManager.__init__`: the network name,
the account address and the private key loaded from it (lines 33, 46-47). -/
structure WalletSelf where
  network : String
  address : String
  privateKey : ℕ
deriving DecidableEq, Repr

/-- Node responses read during a bare `approve_token` run (or the approve
sub-operation of `supply_to_aave` / `deposit`). -/
structure SubEnv where
  tokenSymbol : Option String
  gasPriceWei : ℕ
  nonce : ℕ
  chainId : ℕ
  txHash : ℕ
  receipt : Receipt
deriving DecidableEq, Repr

/-- Node responses read during one operation run.  `tokenSymbol`,
`postShares` and `postTokenBalance` are `none` when the corresponding
call raises (the source wraps those calls in `try`/`except`). -/
structure ChainEnv where
  balanceQueryFails : Bool
  balanceWei : ℕ
  tokenSymbol : Option String
  tokenBalanceRaw : ℕ
  allowanceRaw : ℕ
  sharesBalanceRaw : ℕ
  gasPriceWei : ℕ
  nonce : ℕ
  chainId : ℕ
  txHash : ℕ
  receipt : Receipt
  approveGasPriceWei : ℕ
  approveNonce : ℕ
  approveTxHash : ℕ
  approveReceipt : Receipt
  postShares : Option ℕ
  postTokenBalance : Option ℕ
deriving DecidableEq, Repr

/-- The node responses consumed by the approve sub-operation that
`supply_to_aave` / `deposit` run before their main transaction. -/
def ChainEnv.subEnv (env : ChainEnv) : SubEnv :=
  { tokenSymbol := env.tokenSymbol
    gasPriceWei := env.approveGasPriceWei
    nonce := env.approveNonce
    chainId := env.chainId
    txHash := env.approveTxHash
    receipt := env.approveReceipt }

/-- `_get_explorer_url` (lines 409-421). -/
def get_explorer_url (network : String) (txHash : ℕ) : String :=
  let h := toString txHash
  if network = "mainnet" then "https://etherscan.io/tx/" ++ h
  else if network = "sepolia" then "https://sepolia.etherscan.io/tx/" ++ h
  else if network = "polygon" then "https://polygonscan.com/tx/" ++ h
  else if network = "polygon-amoy" then "https://amoy.polygonscan.com/tx/" ++ h
  else if network = "arbitrum" then "https://arbiscan.io/tx/" ++ h
  else if network = "optimism" then "https://optimistic.etherscan.io/tx/" ++ h
  else if network = "base" then "https://basescan.org/tx/" ++ h
  else "https://etherscan.io/tx/" ++ h

/-- Result dict of `get_balance` (lines 86-91). -/
structure BalanceResult where
  address : String
  balanceWei : ℕ
  balanceEth : ℚ
  network : String
deriving DecidableEq, Repr

/-- `get_balance` (lines 68-94): on any exception the `except` clause
prints `"Error getting user: ..."` and returns `None` — modelled by
`none` — collapsing every error cause to the same single sentinel. -/
def get_balance (w : WalletSelf) (env : ChainEnv) (address : Option String) :
    Option BalanceResult × List LogEntry :=
  if env.balanceQueryFails then (none, [LogEntry.balanceError])
  else
    let checkAddress := address.getD w.address
    (some { address := checkAddress
            balanceWei := env.balanceWei
            balanceEth := (env.balanceWei : ℚ) / (10 : ℚ) ^ (18 : ℕ)
            network := w.network }, [])

/-- Result dict of `get_token_balance` (lines 152-160). -/
structure TokenBalanceResult where
  address : String
  tokenAddress : String
  tokenSymbol : String
  balanceRaw : ℕ
  balanceTokens : ℚ
  decimals : ℕ
  network : String
deriving DecidableEq, Repr

/-- `get_token_balance` (lines 96-163): queries `balanceOf`, divides by
`10 ** decimals`, and queries the symbol with a `'TOKEN'` fallback. -/
def get_token_balance (w : WalletSelf) (env : ChainEnv)
    (tokenAddress : String) (address : Option String) (decimals : ℕ) :
    TokenBalanceResult :=
  let checkAddress := address.getD w.address
  { address := checkAddress
    tokenAddress := tokenAddress
    tokenSymbol := env.tokenSymbol.getD "TOKEN"
    balanceRaw := env.tokenBalanceRaw
    balanceTokens := fromBaseUnits env.tokenBalanceRaw decimals
    decimals := decimals
    network := w.network }

/-- Result dict of `send_eth` (lines 272-281). -/
structure SendEthResult where
  txHash : ℕ
  status : String
  blockNumber : ℕ
  gasUsed : ℕ
  sender : String
  recipient : String
  amountEth : ℚ
  explorerUrl : String
deriving DecidableEq, Repr

/-- `send_eth` (lines 200-281): checks the freshly queried ETH balance,
then builds, signs, broadcasts and confirms a native transfer with a fixed
gas limit of 21000.  The gas price is queried only when the caller passed
no explicit `gas_price_gwei`; the balance query is modelled as answered
(its own failure mode is `get_balance`'s concern). -/
def send_eth (w : WalletSelf) (signFn : ℕ → UnsignedTx → ℕ) (env : ChainEnv)
    (toAddress : String) (amountEth : ℚ) (gasPriceGwei : Option ℚ) :
    Run SendEthResult :=
  let balanceEth : ℚ := (env.balanceWei : ℚ) / (10 : ℚ) ^ (18 : ℕ)
  if balanceEth < amountEth then
    { result := .error .insufficientBalance
      events := [.queryBalance]
      builtTxs := []
      logs := [] }
  else
    let gasPrice : ℕ := match gasPriceGwei with
      | some g => (pyInt (g * (10 : ℚ) ^ (9 : ℕ))).toNat
      | none => env.gasPriceWei
    let gasEvents : List Event := match gasPriceGwei with
      | some _ => []
      | none => [.queryGasPrice .main]
    let tx : UnsignedTx :=
      { sender := w.address
        recipient := toAddress
        value := pyInt (amountEth * (10 : ℚ) ^ (18 : ℕ))
        callData := .nativeTransfer
        gas := 21000
        gasPrice := gasPrice
        nonce := env.nonce
        chainId := env.chainId }
    let _sig := signFn w.privateKey tx
    let status : String := if env.receipt.status = 1 then "success" else "failed"
    { result := .ok
        { txHash := env.txHash
          status := status
          blockNumber := env.receipt.blockNumber
          gasUsed := env.receipt.gasUsed
          sender := w.address
          recipient := toAddress
          amountEth := amountEth
          explorerUrl := get_explorer_url w.network env.txHash }
      events := [.queryBalance] ++ gasEvents ++
        [.queryNonce .main, .sign .main, .broadcast .main, .waitReceipt .main]
      builtTxs := [tx]
      logs := [.preparingSend w.address toAddress amountEth gasPrice,
               .txSigned, .txSent env.txHash, .txStatus status,
               .blockInfo env.receipt.blockNumber env.receipt.gasUsed] }

/-- Result dict of `send_erc20` (lines 396-407). -/
structure SendErc20Result where
  txHash : ℕ
  status : String
  token : String
  tokenAddress : String
  sender : String
  recipient : String
  amount : ℚ
  blockNumber : ℕ
  gasUsed : ℕ
  explorerUrl : String
deriving DecidableEq, Repr

/-- `send_erc20` (lines 283-407): queries the token symbol and the sender's
token balance, raises on insufficiency, converts the amount with
`int(amount * 10 ** decimals)`, then builds, signs, broadcasts and
confirms the `transfer` call. -/
def send_erc20 (w : WalletSelf) (signFn : ℕ → UnsignedTx → ℕ) (env : ChainEnv)
    (tokenAddress toAddress : String) (amount : ℚ) (decimals : ℕ)
    (gasLimit : ℕ) : Run SendErc20Result :=
  let symbol := env.tokenSymbol.getD "TOKEN"
  let balanceTokens : ℚ := fromBaseUnits env.tokenBalanceRaw decimals
  if balanceTokens < amount then
    { result := .error .insufficientBalance
      events := [.querySymbol .main, .queryTokenBalance]
      builtTxs := []
      logs := [] }
  else
    let amountUnits : ℤ := toBaseUnits amount decimals
    let tx : UnsignedTx :=
      { sender := w.address
        recipient := tokenAddress
        value := 0
        callData := .transferCall toAddress amountUnits
        gas := gasLimit
        gasPrice := env.gasPriceWei
        nonce := env.nonce
        chainId := env.chainId }
    let _sig := signFn w.privateKey tx
    let status : String := if env.receipt.status = 1 then "success" else "failed"
    { result := .ok
        { txHash := env.txHash
          status := status
          token := symbol
          tokenAddress := tokenAddress
          sender := w.address
          recipient := toAddress
          amount := amount
          blockNumber := env.receipt.blockNumber
          gasUsed := env.receipt.gasUsed
          explorerUrl := get_explorer_url w.network env.txHash }
      events := [.querySymbol .main, .queryTokenBalance,
        .queryGasPrice .main, .queryNonce .main, .sign .main,
        .broadcast .main, .waitReceipt .main]
      builtTxs := [tx]
      logs := [.preparingTransfer w.address toAddress amount symbol,
               .txSigned, .txSent env.txHash, .txStatus status] }

/-- Result dict of `approve_token` (lines 548-558). -/
structure ApproveResult where
  txHash : ℕ
  status : String
  token : String
  tokenAddress : String
  spender : String
  amount : String
  blockNumber : ℕ
  gasUsed : ℕ
  explorerUrl : String
deriving DecidableEq, Repr

/-- `approve_token` (lines 450-558): approves `spender` for
`int(amount * 10 ** decimals)` base units, or for the maximum uint256
value `2^256 - 1` when `amount is None`; no balance precondition is
checked.  `tag` marks whether this run is the approve sub-operation of an
outer `supply_to_aave` / `deposit`. -/
def approve_token (tag : OpTag) (w : WalletSelf)
    (signFn : ℕ → UnsignedTx → ℕ) (env : SubEnv)
    (tokenAddress spenderAddress : String) (amount : Option ℚ)
    (decimals : ℕ) (gasLimit : ℕ) : Run ApproveResult :=
  let symbol := env.tokenSymbol.getD "TOKEN"
  let amountUnits : ℤ := match amount with
    | none => 2 ^ (256 : ℕ) - 1
    | some a => toBaseUnits a decimals
  let amountStr : String := match amount with
    | none => "MAX"
    | some a => toString a
  let tx : UnsignedTx :=
    { sender := w.address
      recipient := tokenAddress
      value := 0
      callData := .approveCall spenderAddress amountUnits
      gas := gasLimit
      gasPrice := env.gasPriceWei
      nonce := env.nonce
      chainId := env.chainId }
  let _sig := signFn w.privateKey tx
  let status : String := if env.receipt.status = 1 then "success" else "failed"
  { result := .ok
      { txHash := env.txHash
        status := status
        token := symbol
        tokenAddress := tokenAddress
        spender := spenderAddress
        amount := amountStr
        blockNumber := env.receipt.blockNumber
        gasUsed := env.receipt.gasUsed
        explorerUrl := get_explorer_url w.network env.txHash }
    events := [.querySymbol tag, .queryGasPrice tag, .queryNonce tag,
               .sign tag, .broadcast tag, .waitReceipt tag]
    builtTxs := [tx]
    logs := [.preparingApprove tokenAddress spenderAddress amountStr symbol,
             .txSigned, .txSent env.txHash, .txStatus status] }

/-- Result dict of `supply_to_aave` (lines 712-724). -/
structure SupplyResult where
  txHash : ℕ
  status : String
  poolAddress : String
  asset : String
  assetAddress : String
  amount : ℚ
  onBehalfOf : String
  referralCode : ℕ
  blockNumber : ℕ
  gasUsed : ℕ
  explorerUrl : String
deriving DecidableEq, Repr

/-- `supply_to_aave` (lines 560-724): checks the sender's token balance;
when `auto_approve` and the on-chain allowance is below the converted
amount, first runs `approve_token` with `amount=None` (maximum uint256)
and raises unless that sub-operation reports status `'success'`; then
builds, signs, broadcasts and confirms the `supply` call. -/
def supply_to_aave (w : WalletSelf) (signFn : ℕ → UnsignedTx → ℕ)
    (env : ChainEnv) (poolAddress assetAddress : String) (amount : ℚ)
    (onBehalfOf : Option String) (referralCode : ℕ) (decimals : ℕ)
    (gasLimit : ℕ) (autoApprove : Bool) : Run SupplyResult :=
  let onBehalf := onBehalfOf.getD w.address
  let symbol := env.tokenSymbol.getD "TOKEN"
  let balanceTokens : ℚ := fromBaseUnits env.tokenBalanceRaw decimals
  let amountUnits : ℤ := toBaseUnits amount decimals
  let baseEvents : List Event := [.querySymbol .main, .queryTokenBalance]
  if balanceTokens < amount then
    { result := .error .insufficientBalance
      events := baseEvents
      builtTxs := []
      logs := [] }
  else
    let mainRun : List Event → List UnsignedTx → List LogEntry →
        Run SupplyResult := fun preEvents preTxs preLogs =>
      let tx : UnsignedTx :=
        { sender := w.address
          recipient := poolAddress
          value := 0
          callData := .supplyCall assetAddress amountUnits onBehalf
            referralCode
          gas := gasLimit
          gasPrice := env.gasPriceWei
          nonce := env.nonce
          chainId := env.chainId }
      let _sig := signFn w.privateKey tx
      let status : String :=
        if env.receipt.status = 1 then "success" else "failed"
      { result := .ok
          { txHash := env.txHash
            status := status
            poolAddress := poolAddress
            asset := symbol
            assetAddress := assetAddress
            amount := amount
            onBehalfOf := onBehalf
            referralCode := referralCode
            blockNumber := env.receipt.blockNumber
            gasUsed := env.receipt.gasUsed
            explorerUrl := get_explorer_url w.network env.txHash }
        events := baseEvents ++ preEvents ++
          [.queryGasPrice .main, .queryNonce .main, .sign .main,
           .broadcast .main, .waitReceipt .main]
        builtTxs := preTxs ++ [tx]
        logs := preLogs ++
          [.preparingSupply poolAddress assetAddress symbol amount onBehalf
             referralCode,
           .txSigned, .txSent env.txHash, .txStatus status,
           .blockInfo env.receipt.blockNumber env.receipt.gasUsed] }
    if autoApprove then
      if (env.allowanceRaw : ℤ) < amountUnits then
        let sub := approve_token .approveSub w signFn env.subEnv assetAddress
          poolAddress none decimals 100000
        match sub.result with
        | .error e =>
          { result := .error e
            events := baseEvents ++ [.queryAllowance] ++ sub.events
            builtTxs := sub.builtTxs
            logs := [.approvalInsufficient] ++ sub.logs }
        | .ok ar =>
          if ar.status = "success" then
            mainRun ([.queryAllowance] ++ sub.events) sub.builtTxs
              ([.approvalInsufficient] ++ sub.logs)
          else
            { result := .error .approvalFailed
              events := baseEvents ++ [.queryAllowance] ++ sub.events
              builtTxs := sub.builtTxs
              logs := [.approvalInsufficient] ++ sub.logs }
      else
        mainRun [.queryAllowance] [] []
    else
      mainRun [] [] []

/-- Result dict of `deposit` (lines 898-910). -/
structure DepositResult where
  txHash : ℕ
  status : String
  contractAddress : String
  token : String
  tokenAddress : String
  assets : ℚ
  receiver : String
  shares : ℕ
  blockNumber : ℕ
  gasUsed : ℕ
  explorerUrl : String
deriving DecidableEq, Repr

/-- `deposit` (lines 726-910): like `supply_to_aave` but for an ERC4626
vault `deposit(assets, receiver)` call; after a receipt with status 1 it
additionally queries `balanceOf(receiver)` on the vault and reports that
total as `shares` (0 when that query raises, and 0 when the transaction
reverted; the dict stringifies the number). -/
def deposit (w : WalletSelf) (signFn : ℕ → UnsignedTx → ℕ) (env : ChainEnv)
    (assets : ℚ) (contractAddress tokenAddress : String)
    (receiver : Option String) (decimals : ℕ) (gasLimit : ℕ)
    (autoApprove : Bool) : Run DepositResult :=
  let recv := receiver.getD w.address
  let symbol := env.tokenSymbol.getD "TOKEN"
  let balanceTokens : ℚ := fromBaseUnits env.tokenBalanceRaw decimals
  let amountUnits : ℤ := toBaseUnits assets decimals
  let baseEvents : List Event := [.querySymbol .main, .queryTokenBalance]
  if balanceTokens < assets then
    { result := .error .insufficientBalance
      events := baseEvents
      builtTxs := []
      logs := [] }
  else
    let mainRun : List Event → List UnsignedTx → List LogEntry →
        Run DepositResult := fun preEvents preTxs preLogs =>
      let tx : UnsignedTx :=
        { sender := w.address
          recipient := contractAddress
          value := 0
          callData := .depositCall amountUnits recv
          gas := gasLimit
          gasPrice := env.gasPriceWei
          nonce := env.nonce
          chainId := env.chainId }
      let _sig := signFn w.privateKey tx
      let status : String :=
        if env.receipt.status = 1 then "success" else "failed"
      let shares : ℕ := if status = "success" then env.postShares.getD 0
        else 0
      let postEvents : List Event := if status = "success" then
        [.queryPostBalance] else []
      { result := .ok
          { txHash := env.txHash
            status := status
            contractAddress := contractAddress
            token := symbol
            tokenAddress := tokenAddress
            assets := assets
            receiver := recv
            shares := shares
            blockNumber := env.receipt.blockNumber
            gasUsed := env.receipt.gasUsed
            explorerUrl := get_explorer_url w.network env.txHash }
        events := baseEvents ++ preEvents ++
          [.queryGasPrice .main, .queryNonce .main, .sign .main,
           .broadcast .main, .waitReceipt .main] ++ postEvents
        builtTxs := preTxs ++ [tx]
        logs := preLogs ++
          [.preparingDeposit contractAddress tokenAddress symbol assets recv,
           .txSigned, .txSent env.txHash, .txStatus status,
           .blockInfo env.receipt.blockNumber env.receipt.gasUsed] ++
          (if 0 < shares then [.sharesReceived shares] else []) }
    if autoApprove then
      if (env.allowanceRaw : ℤ) < amountUnits then
        let sub := approve_token .approveSub w signFn env.subEnv tokenAddress
          contractAddress none decimals 100000
        match sub.result with
        | .error e =>
          { result := .error e
            events := baseEvents ++ [.queryAllowance] ++ sub.events
            builtTxs := sub.builtTxs
            logs := [.approvalInsufficient] ++ sub.logs }
        | .ok ar =>
          if ar.status = "success" then
            mainRun ([.queryAllowance] ++ sub.events) sub.builtTxs
              ([.approvalInsufficient] ++ sub.logs)
          else
            { result := .error .approvalFailed
              events := baseEvents ++ [.queryAllowance] ++ sub.events
              builtTxs := sub.builtTxs
              logs := [.approvalInsufficient] ++ sub.logs }
      else
        mainRun [.queryAllowance] [] []
    else
      mainRun [] [] []

/-- Result dict of `redeem` (lines 1057-1070). -/
structure RedeemResult where
  txHash : ℕ
  status : String
  contractAddress : String
  token : String
  tokenAddress : String
  shares : ℚ
  receiver : String
  owner : String
  assetsReceived : ℚ
  blockNumber : ℕ
  gasUsed : ℕ
  explorerUrl : String
deriving DecidableEq, Repr

/-- `redeem` (lines 912-1070): checks the owner's vault share balance
against `int(shares)` (shares are whole base units, no decimal scaling),
then builds, signs, broadcasts and confirms the
`redeem(shares, receiver, owner)` call; after a receipt with status 1 it
queries the receiver's underlying-token balance and reports
`balance_after / 10 ** decimals` as `assets_received` (0 when that query
raises, and 0 when the transaction reverted). -/
def redeem (w : WalletSelf) (signFn : ℕ → UnsignedTx → ℕ) (env : ChainEnv)
    (shares : ℚ) (contractAddress tokenAddress : String)
    (receiver owner : Option String) (decimals : ℕ) (gasLimit : ℕ) :
    Run RedeemResult :=
  let recv := receiver.getD w.address
  let own := owner.getD w.address
  let symbol := env.tokenSymbol.getD "TOKEN"
  let sharesUnits : ℤ := pyInt shares
  if (env.sharesBalanceRaw : ℤ) < sharesUnits then
    { result := .error .insufficientShares
      events := [.querySymbol .main, .querySharesBalance]
      builtTxs := []
      logs := [] }
  else
    let tx : UnsignedTx :=
      { sender := w.address
        recipient := contractAddress
        value := 0
        callData := .redeemCall sharesUnits recv own
        gas := gasLimit
        gasPrice := env.gasPriceWei
        nonce := env.nonce
        chainId := env.chainId }
    let _sig := signFn w.privateKey tx
    let status : String :=
      if env.receipt.status = 1 then "success" else "failed"
    let assetsReceived : ℚ := if status = "success" then
        match env.postTokenBalance with
        | some b => fromBaseUnits b decimals
        | none => 0
      else 0
    let postEvents : List Event := if status = "success" then
      [.queryPostBalance] else []
    { result := .ok
        { txHash := env.txHash
          status := status
          contractAddress := contractAddress
          token := symbol
          tokenAddress := tokenAddress
          shares := shares
          receiver := recv
          owner := own
          assetsReceived := assetsReceived
          blockNumber := env.receipt.blockNumber
          gasUsed := env.receipt.gasUsed
          explorerUrl := get_explorer_url w.network env.txHash }
      events := [.querySymbol .main, .querySharesBalance,
        .queryGasPrice .main, .queryNonce .main, .sign .main,
        .broadcast .main, .waitReceipt .main] ++ postEvents
      builtTxs := [tx]
      logs := [.preparingRedeem contractAddress tokenAddress symbol shares
                 recv own,
               .txSigned, .txSent env.txHash, .txStatus status,
               .blockInfo env.receipt.blockNumber env.receipt.gasUsed] ++
        (if 0 < assetsReceived then [.assetsReceived assetsReceived]
         else []) }

/-- `true` when the event is a signing (`sign_transaction`) or broadcast
(`send_raw_transaction`) call. -/
def Event.isSignOrBroadcast : Event → Bool
  | .sign _ => true
  | .broadcast _ => true
  | _ => false

/-- An event trace containing no signing call and no broadcast call. -/
def signFree (l : List Event) : Bool :=
  l.all fun e => ! e.isSignOrBroadcast

/-- `a`'s first occurrence comes before `b`'s first occurrence whenever
both occur in `l`. -/
def occursBefore (a b : Event) (l : List Event) : Bool :=
  match l.indexOf? a, l.indexOf? b with
  | some i, some j => decide (i < j)
  | _, _ => true

/-!
## Nonce handling under concurrent requests

`WalletManager` contains no synchronization whatever (no lock, no queue, no
per-account critical section appears anywhere in wallet_manager.py), while
each operation fetches the account nonce with `get_transaction_count`
immediately before signing (e.g. `send_eth` line 241).  The three
nonce-relevant steps of one send pipeline — fetch the nonce (line 241),
build and sign the transaction carrying it (lines 235-252), send it
(line 257) — are therefore freely interleavable across two concurrent
requests for the same account.  The mock network below increments the
account nonce only after a signed transaction is sent, as the spec's
property test prescribes. -/

/-- Progress of one send pipeline: the nonce it fetched, the nonce carried
by the unsigned transaction it built and signed, and whether the signed
transaction was sent. -/
structure SendPipeline where
  fetchedNonce : Option ℕ
  txNonce : Option ℕ
  sent : Bool
deriving DecidableEq, Repr

/-- A pipeline that has not started. -/
def initPipeline : SendPipeline :=
  { fetchedNonce := none, txNonce := none, sent := false }

/-- Advance one pipeline by its next step against the mock network whose
account nonce is `chainNonce`; returns the updated chain nonce and
pipeline.  A finished pipeline is left unchanged. -/
def stepPipeline (chainNonce : ℕ) (p : SendPipeline) : ℕ × SendPipeline :=
  match p.fetchedNonce, p.txNonce, p.sent with
  | none, _, _ => (chainNonce, { p with fetchedNonce := some chainNonce })
  | some n, none, _ => (chainNonce, { p with txNonce := some n })
  | some _, some _, false => (chainNonce + 1, { p with sent := true })
  | some _, some _, true => (chainNonce, p)

/-- Two concurrent send pipelines for the same account, sharing the mock
network's account nonce. -/
structure TwoClients where
  chainNonce : ℕ
  p1 : SendPipeline
  p2 : SendPipeline
deriving DecidableEq, Repr

/-- Run one scheduler choice: `true` steps the first pipeline, `false` the
second.  Because the source has no per-account lock, every schedule is
realizable. -/
def stepClients (s : TwoClients) (b : Bool) : TwoClients :=
  if b then
    let (c, p) := stepPipeline s.chainNonce s.p1
    { s with chainNonce := c, p1 := p }
  else
    let (c, p) := stepPipeline s.chainNonce s.p2
    { s with chainNonce := c, p2 := p }

/-- Run a whole schedule. -/
def runSchedule (sched : List Bool) (s : TwoClients) : TwoClients :=
  sched.foldl stepClients s

/-- Both pipelines yet to start, chain nonce 0. -/
def initClients : TwoClients :=
  { chainNonce := 0, p1 := initPipeline, p2 := initPipeline }

/-!
## Shared concrete sample inputs used by witnesses
-/

/-- A receipt whose status bit is 1. -/
def okReceipt : Receipt := { status := 1, blockNumber := 5, gasUsed := 21000 }

/-- A receipt whose status bit is 0 (mined but reverted). -/
def revertReceipt : Receipt := { status := 0, blockNumber := 5, gasUsed := 21000 }

/-- A wallet with a distinctive private key. -/
def w0 : WalletSelf := { network := "sepolia", address := "0xME", privateKey := 99 }

/-- A trivial signing function. -/
def sf0 : ℕ → UnsignedTx → ℕ := fun _ _ => 0

/-- An environment in which every balance-style precondition fails:
all queried balances, allowances and share balances are zero. -/
def lowEnv : ChainEnv :=
  { balanceQueryFails := false
    balanceWei := 0
    tokenSymbol := none
    tokenBalanceRaw := 0
    allowanceRaw := 0
    sharesBalanceRaw := 0
    gasPriceWei := 7
    nonce := 3
    chainId := 11155111
    txHash := 77
    receipt := okReceipt
    approveGasPriceWei := 7
    approveNonce := 3
    approveTxHash := 76
    approveReceipt := okReceipt
    postShares := some 42
    postTokenBalance := some 1000 }

/-- An environment with ample balances, zero allowance, and confirmations
that all succeed. -/
def okEnv : ChainEnv :=
  { lowEnv with
    balanceWei := 10 ^ 19
    tokenBalanceRaw := 10 ^ 7
    sharesBalanceRaw := 100 }

/-- Like `okEnv` but the approve sub-transaction is mined and reverts. -/
def approveFailEnv : ChainEnv := { okEnv with approveReceipt := revertReceipt }

/-- Like `okEnv` but the two post-transaction balance queries raise. -/
def noPostEnv : ChainEnv :=
  { okEnv with postShares := none, postTokenBalance := none }

/-- Like `okEnv` but the main transaction is mined and reverts. -/
def mainRevertEnv : ChainEnv := { okEnv with receipt := revertReceipt }

/-- An environment in which the balance RPC query raises. -/
def failEnv : ChainEnv := { lowEnv with balanceQueryFails := true }

/-- Receipt-status bookkeeping shared by every operation: the source's
`'success' if receipt['status'] == 1 else 'failed'`. -/
theorem status_string_iff (n : ℕ) (h : n = 0 ∨ n = 1) :
    ((if n = 1 then "success" else "failed") = "success" ↔ n = 1) ∧
    ((if n = 1 then "success" else "failed") = "failed" ↔ n = 0) := by
  rcases h with h | h <;> subst h <;> decide

/-- Truncation toward zero moves a rational by strictly less than one. -/
theorem abs_pyInt_sub_lt_one (q : ℚ) : |(pyInt q : ℚ) - q| < 1 := by
  unfold pyInt
  rcases le_or_lt 0 q with h | h
  · rw [if_pos h, abs_lt]
    constructor
    · linarith [Int.lt_floor_add_one q]
    · linarith [Int.floor_le q]
  · rw [if_neg (not_le.mpr h), abs_lt]
    constructor
    · linarith [Int.le_ceil q]
    · linarith [Int.ceil_lt_add_one q]

/-- C3 counterexample: at amount 1.5 (a float the machine represents
exactly) and decimals 0, the source's conversion
`int(amount * 10 ** decimals)` yields 1, while the nearest integer —
the spec's `round(amount * 10^decimals)` — is 2. -/
theorem toBaseUnits_ne_round :
    toBaseUnits (3 / 2 : ℚ) 0 = 1 ∧ specRoundBaseUnits (3 / 2 : ℚ) 0 = 2 ∧
    toBaseUnits (3 / 2 : ℚ) 0 ≠ specRoundBaseUnits (3 / 2 : ℚ) 0 := by
  refine ⟨?_, ?_, ?_⟩ <;>
    norm_num [toBaseUnits, specRoundBaseUnits, pyInt, round_eq]

/-- C3 amended: for every nonnegative amount and every decimals value, the
converted value is the truncation (here: floor) of
`amount * 10^decimals`: it never exceeds the exact product and lies
strictly within one base unit below it. -/
theorem toBaseUnits_is_truncation (amount : ℚ) (decimals : ℕ)
    (h : 0 ≤ amount) :
    (toBaseUnits amount decimals : ℚ) ≤ amount * (10 : ℚ) ^ decimals ∧
    amount * (10 : ℚ) ^ decimals - 1 < (toBaseUnits amount decimals : ℚ) := by
  have h0 : 0 ≤ amount * (10 : ℚ) ^ decimals := by positivity
  unfold toBaseUnits pyInt
  rw [if_pos h0]
  refine ⟨Int.floor_le _, ?_⟩
  linarith [Int.lt_floor_add_one (amount * (10 : ℚ) ^ decimals)]

/-- Witness for the amended C3 theorem at amount 1.5, decimals 1. -/
theorem toBaseUnits_is_truncation_witness :
    (toBaseUnits (3 / 2 : ℚ) 1 : ℚ) ≤ (3 / 2 : ℚ) * (10 : ℚ) ^ (1 : ℕ) ∧
    (3 / 2 : ℚ) * (10 : ℚ) ^ (1 : ℕ) - 1 < (toBaseUnits (3 / 2 : ℚ) 1 : ℚ) :=
  toBaseUnits_is_truncation (3 / 2) 1 (by norm_num)

/-- C6: converting any human-unit amount to base units with
`int(amount * 10 ** decimals)` and back with `raw / 10 ** decimals`
returns the original amount to within one base unit
(`1 / 10^decimals` in human units). -/
theorem roundtrip_within_one_base_unit (amount : ℚ) (decimals : ℕ) :
    |fromBaseUnits (toBaseUnits amount decimals) decimals - amount| ≤
      1 / (10 : ℚ) ^ decimals := by
  have hpow : (0 : ℚ) < (10 : ℚ) ^ decimals := by positivity
  have hne : ((10 : ℚ) ^ decimals) ≠ 0 := ne_of_gt hpow
  have key : fromBaseUnits (toBaseUnits amount decimals) decimals - amount =
      ((pyInt (amount * (10 : ℚ) ^ decimals) : ℚ) -
        amount * (10 : ℚ) ^ decimals) / (10 : ℚ) ^ decimals := by
    unfold fromBaseUnits toBaseUnits
    field_simp
    ring
  rw [key, abs_div, abs_of_pos hpow]
  exact (div_le_div_iff_of_pos_right hpow).mpr
    (abs_pyInt_sub_lt_one (amount * (10 : ℚ) ^ decimals)).le

/-- C7 counterexample: with the CHAIN_ID environment variable unset,
`Config.CHAIN_ID` evaluates to `None`, not to 1 — the `"1"` default inside
`os.getenv` is unreachable because the guarding conditional already took
the `else None` branch. -/
theorem config_CHAIN_ID_unset_is_none :
    config_CHAIN_ID none = none ∧ config_CHAIN_ID none ≠ some 1 := by
  constructor <;> simp [config_CHAIN_ID]

/-- C7 amended: when CHAIN_ID is unset (or empty), `Config.CHAIN_ID` is
`None`; the default of 1 is applied only downstream, where tools.py
computes `Config.CHAIN_ID or 1`; when CHAIN_ID is set to a nonempty
string, `Config.CHAIN_ID` is its parsed integer value. -/
theorem config_CHAIN_ID_semantics (s : String) (hs : s ≠ "") :
    config_CHAIN_ID none = none ∧
    effective_chain_id (config_CHAIN_ID none) = 1 ∧
    config_CHAIN_ID (some s) = s.toInt? := by
  refine ⟨by simp [config_CHAIN_ID], rfl, ?_⟩
  simp [config_CHAIN_ID, hs]

/-- Witness for the amended C7 theorem at CHAIN_ID="5". -/
theorem config_CHAIN_ID_semantics_witness :
    config_CHAIN_ID none = none ∧
    effective_chain_id (config_CHAIN_ID none) = 1 ∧
    config_CHAIN_ID (some "5") = ("5" : String).toInt? :=
  config_CHAIN_ID_semantics "5" (by decide)

/-- C5 (exhibiting the code bug): whenever the underlying RPC balance query
raises, `get_balance` returns the bare `None` sentinel — the same value for
every failure cause and every queried address — after printing an error
line, instead of surfacing a distinguishable error kind. -/
theorem get_balance_swallows_errors (w : WalletSelf) (env : ChainEnv)
    (addr : Option String) (h : env.balanceQueryFails = true) :
    (get_balance w env addr).1 = none ∧
    (get_balance w env addr).2 = [LogEntry.balanceError] := by
  constructor <;> simp [get_balance, h]

/-- Witness: `get_balance` at a concrete failing environment. -/
theorem get_balance_swallows_errors_witness :
    (get_balance w0 failEnv (some "0xABC")).1 = none ∧
    (get_balance w0 failEnv (some "0xABC")).2 = [LogEntry.balanceError] :=
  get_balance_swallows_errors w0 failEnv (some "0xABC") rfl

/-- C1: for each of the five operations, when the freshly queried balance
(or share-balance) precondition fails, the run raises the corresponding
insufficiency error and its trace contains no signing and no broadcast
call. -/
theorem precondition_failure_blocks_send
    (w : WalletSelf) (sf : ℕ → UnsignedTx → ℕ) (env : ChainEnv)
    (toA tokenA poolA assetA contractA : String)
    (amount : ℚ) (gasPriceGwei : Option ℚ) (decimals gasLimit : ℕ)
    (onBehalfOf recvOpt ownOpt : Option String) (referralCode : ℕ)
    (autoApprove : Bool) :
    ((env.balanceWei : ℚ) / (10 : ℚ) ^ (18 : ℕ) < amount →
      (send_eth w sf env toA amount gasPriceGwei).result =
        .error .insufficientBalance ∧
      signFree (send_eth w sf env toA amount gasPriceGwei).events = true) ∧
    (fromBaseUnits env.tokenBalanceRaw decimals < amount →
      (send_erc20 w sf env tokenA toA amount decimals gasLimit).result =
        .error .insufficientBalance ∧
      signFree (send_erc20 w sf env tokenA toA amount decimals
        gasLimit).events = true) ∧
    (fromBaseUnits env.tokenBalanceRaw decimals < amount →
      (supply_to_aave w sf env poolA assetA amount onBehalfOf referralCode
        decimals gasLimit autoApprove).result =
        .error .insufficientBalance ∧
      signFree (supply_to_aave w sf env poolA assetA amount onBehalfOf
        referralCode decimals gasLimit autoApprove).events = true) ∧
    (fromBaseUnits env.tokenBalanceRaw decimals < amount →
      (deposit w sf env amount contractA tokenA recvOpt decimals gasLimit
        autoApprove).result = .error .insufficientBalance ∧
      signFree (deposit w sf env amount contractA tokenA recvOpt decimals
        gasLimit autoApprove).events = true) ∧
    ((env.sharesBalanceRaw : ℤ) < pyInt amount →
      (redeem w sf env amount contractA tokenA recvOpt ownOpt decimals
        gasLimit).result = .error .insufficientShares ∧
      signFree (redeem w sf env amount contractA tokenA recvOpt ownOpt
        decimals gasLimit).events = true) := by
  refine ⟨fun h => ?_, fun h => ?_, fun h => ?_, fun h => ?_, fun h => ?_⟩ <;>
    constructor <;>
    simp [send_eth, send_erc20, supply_to_aave, deposit, redeem,
      signFree, Event.isSignOrBroadcast, h]

/-- Witness for C1: at `lowEnv` every queried balance is zero, so each of
the five operations refuses a request for 1 unit without signing or
broadcasting anything. -/
theorem precondition_failure_blocks_send_witness :
    ((send_eth w0 sf0 lowEnv "0xTO" 1 none).result =
       .error .insufficientBalance ∧
     signFree (send_eth w0 sf0 lowEnv "0xTO" 1 none).events = true) ∧
    ((send_erc20 w0 sf0 lowEnv "0xTOK" "0xTO" 1 6 100000).result =
       .error .insufficientBalance ∧
     signFree (send_erc20 w0 sf0 lowEnv "0xTOK" "0xTO" 1 6 100000).events =
       true) ∧
    ((supply_to_aave w0 sf0 lowEnv "0xPOOL" "0xASSET" 1 none 0 6 500000
        true).result = .error .insufficientBalance ∧
     signFree (supply_to_aave w0 sf0 lowEnv "0xPOOL" "0xASSET" 1 none 0 6
        500000 true).events = true) ∧
    ((deposit w0 sf0 lowEnv 1 "0xC" "0xTOK" none 6 500000 true).result =
       .error .insufficientBalance ∧
     signFree (deposit w0 sf0 lowEnv 1 "0xC" "0xTOK" none 6 500000
        true).events = true) ∧
    ((redeem w0 sf0 lowEnv 1 "0xC" "0xTOK" none none 6 500000).result =
       .error .insufficientShares ∧
     signFree (redeem w0 sf0 lowEnv 1 "0xC" "0xTOK" none none 6
        500000).events = true) := by
  have h := precondition_failure_blocks_send w0 sf0 lowEnv "0xTO" "0xTOK"
    "0xPOOL" "0xASSET" "0xC" 1 none 6 500000 none none none 0 true
  have h2 := precondition_failure_blocks_send w0 sf0 lowEnv "0xTO" "0xTOK"
    "0xPOOL" "0xASSET" "0xC" 1 none 6 100000 none none none 0 true
  refine ⟨h.1 ?_, h2.2.1 ?_, h.2.2.1 ?_, h.2.2.2.1 ?_, h.2.2.2.2 ?_⟩ <;>
    norm_num [lowEnv, fromBaseUnits, pyInt]

/-- C2: for `supply_to_aave` and `deposit` with `auto_approve` and
insufficient on-chain allowance (and the balance precondition met),
exactly one approve sub-operation is built, signed, broadcast and
confirmed — with the maximum uint256 allowance `2^256 - 1` — before the
main transaction's build phase starts; and if the approve receipt does not
have status 1, the outer operation raises and the main transaction is
never built, signed or broadcast. -/
theorem autoapprove_two_phase
    (w : WalletSelf) (sf : ℕ → UnsignedTx → ℕ) (env : ChainEnv)
    (poolA assetA contractA tokenA : String) (amount : ℚ)
    (onBehalfOf recvOpt : Option String) (referralCode : ℕ)
    (decimals gasLimit : ℕ)
    (hBal : ¬ fromBaseUnits env.tokenBalanceRaw decimals < amount)
    (hAllow : (env.allowanceRaw : ℤ) < toBaseUnits amount decimals) :
    ((supply_to_aave w sf env poolA assetA amount onBehalfOf referralCode
        decimals gasLimit true).builtTxs.head?.map (fun t => t.callData) =
      some (.approveCall poolA (2 ^ (256 : ℕ) - 1)) ∧
     (supply_to_aave w sf env poolA assetA amount onBehalfOf referralCode
        decimals gasLimit true).events.count (.sign .approveSub) = 1 ∧
     (supply_to_aave w sf env poolA assetA amount onBehalfOf referralCode
        decimals gasLimit true).events.count (.broadcast .approveSub) = 1 ∧
     occursBefore (.waitReceipt .approveSub) (.queryGasPrice .main)
       (supply_to_aave w sf env poolA assetA amount onBehalfOf referralCode
         decimals gasLimit true).events = true ∧
     occursBefore (.waitReceipt .approveSub) (.sign .main)
       (supply_to_aave w sf env poolA assetA amount onBehalfOf referralCode
         decimals gasLimit true).events = true ∧
     (env.approveReceipt.status ≠ 1 →
       (supply_to_aave w sf env poolA assetA amount onBehalfOf referralCode
          decimals gasLimit true).result = .error .approvalFailed ∧
       (supply_to_aave w sf env poolA assetA amount onBehalfOf referralCode
          decimals gasLimit true).events.count (.sign .main) = 0 ∧
       (supply_to_aave w sf env poolA assetA amount onBehalfOf referralCode
          decimals gasLimit true).events.count (.broadcast .main) = 0 ∧
       (supply_to_aave w sf env poolA assetA amount onBehalfOf referralCode
          decimals gasLimit true).builtTxs.length = 1)) ∧
    ((deposit w sf env amount contractA tokenA recvOpt decimals gasLimit
        true).builtTxs.head?.map (fun t => t.callData) =
      some (.approveCall contractA (2 ^ (256 : ℕ) - 1)) ∧
     (deposit w sf env amount contractA tokenA recvOpt decimals gasLimit
        true).events.count (.sign .approveSub) = 1 ∧
     (deposit w sf env amount contractA tokenA recvOpt decimals gasLimit
        true).events.count (.broadcast .approveSub) = 1 ∧
     occursBefore (.waitReceipt .approveSub) (.queryGasPrice .main)
       (deposit w sf env amount contractA tokenA recvOpt decimals gasLimit
         true).events = true ∧
     occursBefore (.waitReceipt .approveSub) (.sign .main)
       (deposit w sf env amount contractA tokenA recvOpt decimals gasLimit
         true).events = true ∧
     (env.approveReceipt.status ≠ 1 →
       (deposit w sf env amount contractA tokenA recvOpt decimals gasLimit
          true).result = .error .approvalFailed ∧
       (deposit w sf env amount contractA tokenA recvOpt decimals gasLimit
          true).events.count (.sign .main) = 0 ∧
       (deposit w sf env amount contractA tokenA recvOpt decimals gasLimit
          true).events.count (.broadcast .main) = 0 ∧
       (deposit w sf env amount contractA tokenA recvOpt decimals gasLimit
          true).builtTxs.length = 1)) := by
  constructor
  · by_cases hst : env.approveReceipt.status = 1
    · have he : (supply_to_aave w sf env poolA assetA amount onBehalfOf
          referralCode decimals gasLimit true).events =
          [.querySymbol .main, .queryTokenBalance, .queryAllowance,
           .querySymbol .approveSub, .queryGasPrice .approveSub,
           .queryNonce .approveSub, .sign .approveSub, .broadcast .approveSub,
           .waitReceipt .approveSub, .queryGasPrice .main, .queryNonce .main,
           .sign .main, .broadcast .main, .waitReceipt .main] := by
        simp [supply_to_aave, approve_token, ChainEnv.subEnv, hBal, hAllow,
          hst]
      have hb : (supply_to_aave w sf env poolA assetA amount onBehalfOf
          referralCode decimals gasLimit true).builtTxs.head?.map
            (fun t => t.callData) =
          some (.approveCall poolA (2 ^ (256 : ℕ) - 1)) := by
        simp [supply_to_aave, approve_token, ChainEnv.subEnv, hBal, hAllow,
          hst]
      refine ⟨hb, ?_, ?_, ?_, ?_, fun hne => (hne hst).elim⟩ <;>
        rw [he] <;> decide
    · have he : (supply_to_aave w sf env poolA assetA amount onBehalfOf
          referralCode decimals gasLimit true).events =
          [.querySymbol .main, .queryTokenBalance, .queryAllowance,
           .querySymbol .approveSub, .queryGasPrice .approveSub,
           .queryNonce .approveSub, .sign .approveSub, .broadcast .approveSub,
           .waitReceipt .approveSub] := by
        simp [supply_to_aave, approve_token, ChainEnv.subEnv, hBal, hAllow,
          hst]
      have hb : (supply_to_aave w sf env poolA assetA amount onBehalfOf
          referralCode decimals gasLimit true).builtTxs.head?.map
            (fun t => t.callData) =
          some (.approveCall poolA (2 ^ (256 : ℕ) - 1)) := by
        simp [supply_to_aave, approve_token, ChainEnv.subEnv, hBal, hAllow,
          hst]
      have hr : (supply_to_aave w sf env poolA assetA amount onBehalfOf
          referralCode decimals gasLimit true).result =
          .error .approvalFailed := by
        simp [supply_to_aave, approve_token, ChainEnv.subEnv, hBal, hAllow,
          hst]
      have hl : (supply_to_aave w sf env poolA assetA amount onBehalfOf
          referralCode decimals gasLimit true).builtTxs.length = 1 := by
        simp [supply_to_aave, approve_token, ChainEnv.subEnv, hBal, hAllow,
          hst]
      refine ⟨hb, ?_, ?_, ?_, ?_, fun _ => ⟨hr, ?_, ?_, hl⟩⟩ <;>
        rw [he] <;> decide
  · by_cases hst : env.approveReceipt.status = 1
    · have hb : (deposit w sf env amount contractA tokenA recvOpt decimals
          gasLimit true).builtTxs.head?.map (fun t => t.callData) =
          some (.approveCall contractA (2 ^ (256 : ℕ) - 1)) := by
        simp [deposit, approve_token, ChainEnv.subEnv, hBal, hAllow, hst]
      by_cases hmain : env.receipt.status = 1
      · have he : (deposit w sf env amount contractA tokenA recvOpt decimals
            gasLimit true).events =
            [.querySymbol .main, .queryTokenBalance, .queryAllowance,
             .querySymbol .approveSub, .queryGasPrice .approveSub,
             .queryNonce .approveSub, .sign .approveSub,
             .broadcast .approveSub, .waitReceipt .approveSub,
             .queryGasPrice .main, .queryNonce .main, .sign .main,
             .broadcast .main, .waitReceipt .main, .queryPostBalance] := by
          simp [deposit, approve_token, ChainEnv.subEnv, hBal, hAllow, hst,
            hmain]
        refine ⟨hb, ?_, ?_, ?_, ?_, fun hne => (hne hst).elim⟩ <;>
          rw [he] <;> decide
      · have he : (deposit w sf env amount contractA tokenA recvOpt decimals
            gasLimit true).events =
            [.querySymbol .main, .queryTokenBalance, .queryAllowance,
             .querySymbol .approveSub, .queryGasPrice .approveSub,
             .queryNonce .approveSub, .sign .approveSub,
             .broadcast .approveSub, .waitReceipt .approveSub,
             .queryGasPrice .main, .queryNonce .main, .sign .main,
             .broadcast .main, .waitReceipt .main] := by
          simp [deposit, approve_token, ChainEnv.subEnv, hBal, hAllow, hst,
            hmain]
        refine ⟨hb, ?_, ?_, ?_, ?_, fun hne => (hne hst).elim⟩ <;>
          rw [he] <;> decide
    · have he : (deposit w sf env amount contractA tokenA recvOpt decimals
          gasLimit true).events =
          [.querySymbol .main, .queryTokenBalance, .queryAllowance,
           .querySymbol .approveSub, .queryGasPrice .approveSub,
           .queryNonce .approveSub, .sign .approveSub, .broadcast .approveSub,
           .waitReceipt .approveSub] := by
        simp [deposit, approve_token, ChainEnv.subEnv, hBal, hAllow, hst]
      have hb : (deposit w sf env amount contractA tokenA recvOpt decimals
          gasLimit true).builtTxs.head?.map (fun t => t.callData) =
          some (.approveCall contractA (2 ^ (256 : ℕ) - 1)) := by
        simp [deposit, approve_token, ChainEnv.subEnv, hBal, hAllow, hst]
      have hr : (deposit w sf env amount contractA tokenA recvOpt decimals
          gasLimit true).result = .error .approvalFailed := by
        simp [deposit, approve_token, ChainEnv.subEnv, hBal, hAllow, hst]
      have hl : (deposit w sf env amount contractA tokenA recvOpt decimals
          gasLimit true).builtTxs.length = 1 := by
        simp [deposit, approve_token, ChainEnv.subEnv, hBal, hAllow, hst]
      refine ⟨hb, ?_, ?_, ?_, ?_, fun _ => ⟨hr, ?_, ?_, hl⟩⟩ <;>
        rw [he] <;> decide

/-- Witness for C2 at concrete environments: with allowance 0 and balance
10 tokens, the approve sub-operation (max uint256) runs exactly once
before the main phase; with a reverting approve receipt the outer
operation fails with only the approve transaction ever built. -/
theorem autoapprove_two_phase_witness :
    (supply_to_aave w0 sf0 okEnv "0xPOOL" "0xASSET" 1 none 0 6 500000
       true).events.count (.sign .approveSub) = 1 ∧
    occursBefore (.waitReceipt .approveSub) (.sign .main)
      (supply_to_aave w0 sf0 okEnv "0xPOOL" "0xASSET" 1 none 0 6 500000
        true).events = true ∧
    (supply_to_aave w0 sf0 approveFailEnv "0xPOOL" "0xASSET" 1 none 0 6
       500000 true).result = .error .approvalFailed ∧
    (deposit w0 sf0 okEnv 1 "0xC" "0xTOK" none 6 500000
       true).builtTxs.head?.map (fun t => t.callData) =
      some (.approveCall "0xC" (2 ^ (256 : ℕ) - 1)) ∧
    (deposit w0 sf0 approveFailEnv 1 "0xC" "0xTOK" none 6 500000
       true).builtTxs.length = 1 := by
  have h1 := autoapprove_two_phase w0 sf0 okEnv "0xPOOL" "0xASSET" "0xC"
    "0xTOK" 1 none none 0 6 500000
    (by norm_num [okEnv, lowEnv, fromBaseUnits])
    (by norm_num [okEnv, lowEnv, toBaseUnits, pyInt])
  have h2 := autoapprove_two_phase w0 sf0 approveFailEnv "0xPOOL" "0xASSET"
    "0xC" "0xTOK" 1 none none 0 6 500000
    (by norm_num [approveFailEnv, okEnv, lowEnv, fromBaseUnits])
    (by norm_num [approveFailEnv, okEnv, lowEnv, toBaseUnits, pyInt])
  exact ⟨h1.1.2.1, h1.1.2.2.2.2.1, (h2.1.2.2.2.2.2 (by decide)).1, h1.2.1,
    (h2.2.2.2.2.2.2 (by decide)).2.2.2⟩

/-- C4: for every operation (given preconditions that let the run reach its
transaction), the outcome is returned only from a run whose trace contains
the receipt wait, and its status field is `"success"` exactly on receipt
status bit 1 and `"failed"` exactly on receipt status bit 0. -/
theorem outcome_only_after_receipt
    (w : WalletSelf) (sf : ℕ → UnsignedTx → ℕ) (env : ChainEnv) (se : SubEnv)
    (toA tokenA poolA assetA contractA : String) (amount : ℚ)
    (gasPriceGwei : Option ℚ) (amountOpt : Option ℚ)
    (onBehalfOf recvOpt ownOpt : Option String) (referralCode : ℕ)
    (decimals gasLimit : ℕ) (autoApprove : Bool)
    (hbEth : ¬ (env.balanceWei : ℚ) / (10 : ℚ) ^ (18 : ℕ) < amount)
    (hbTok : ¬ fromBaseUnits env.tokenBalanceRaw decimals < amount)
    (hbSh : ¬ (env.sharesBalanceRaw : ℤ) < pyInt amount)
    (hstApp : env.approveReceipt.status = 1) :
    ((env.receipt.status = 1 →
        (send_eth w sf env toA amount gasPriceGwei).result.map
          (fun r => r.status) = .ok "success" ∧
        Event.waitReceipt .main ∈
          (send_eth w sf env toA amount gasPriceGwei).events) ∧
     (env.receipt.status = 0 →
        (send_eth w sf env toA amount gasPriceGwei).result.map
          (fun r => r.status) = .ok "failed" ∧
        Event.waitReceipt .main ∈
          (send_eth w sf env toA amount gasPriceGwei).events)) ∧
    ((env.receipt.status = 1 →
        (send_erc20 w sf env tokenA toA amount decimals gasLimit).result.map
          (fun r => r.status) = .ok "success" ∧
        Event.waitReceipt .main ∈
          (send_erc20 w sf env tokenA toA amount decimals gasLimit).events) ∧
     (env.receipt.status = 0 →
        (send_erc20 w sf env tokenA toA amount decimals gasLimit).result.map
          (fun r => r.status) = .ok "failed" ∧
        Event.waitReceipt .main ∈
          (send_erc20 w sf env tokenA toA amount decimals
            gasLimit).events)) ∧
    ((se.receipt.status = 1 →
        (approve_token .main w sf se tokenA poolA amountOpt decimals
          gasLimit).result.map (fun r => r.status) = .ok "success" ∧
        Event.waitReceipt .main ∈
          (approve_token .main w sf se tokenA poolA amountOpt decimals
            gasLimit).events) ∧
     (se.receipt.status = 0 →
        (approve_token .main w sf se tokenA poolA amountOpt decimals
          gasLimit).result.map (fun r => r.status) = .ok "failed" ∧
        Event.waitReceipt .main ∈
          (approve_token .main w sf se tokenA poolA amountOpt decimals
            gasLimit).events)) ∧
    ((env.receipt.status = 1 →
        (supply_to_aave w sf env poolA assetA amount onBehalfOf referralCode
          decimals gasLimit autoApprove).result.map (fun r => r.status) =
          .ok "success" ∧
        Event.waitReceipt .main ∈
          (supply_to_aave w sf env poolA assetA amount onBehalfOf
            referralCode decimals gasLimit autoApprove).events) ∧
     (env.receipt.status = 0 →
        (supply_to_aave w sf env poolA assetA amount onBehalfOf referralCode
          decimals gasLimit autoApprove).result.map (fun r => r.status) =
          .ok "failed" ∧
        Event.waitReceipt .main ∈
          (supply_to_aave w sf env poolA assetA amount onBehalfOf
            referralCode decimals gasLimit autoApprove).events)) ∧
    ((env.receipt.status = 1 →
        (deposit w sf env amount contractA tokenA recvOpt decimals gasLimit
          autoApprove).result.map (fun r => r.status) = .ok "success" ∧
        Event.waitReceipt .main ∈
          (deposit w sf env amount contractA tokenA recvOpt decimals
            gasLimit autoApprove).events) ∧
     (env.receipt.status = 0 →
        (deposit w sf env amount contractA tokenA recvOpt decimals gasLimit
          autoApprove).result.map (fun r => r.status) = .ok "failed" ∧
        Event.waitReceipt .main ∈
          (deposit w sf env amount contractA tokenA recvOpt decimals
            gasLimit autoApprove).events)) ∧
    ((env.receipt.status = 1 →
        (redeem w sf env amount contractA tokenA recvOpt ownOpt decimals
          gasLimit).result.map (fun r => r.status) = .ok "success" ∧
        Event.waitReceipt .main ∈
          (redeem w sf env amount contractA tokenA recvOpt ownOpt decimals
            gasLimit).events) ∧
     (env.receipt.status = 0 →
        (redeem w sf env amount contractA tokenA recvOpt ownOpt decimals
          gasLimit).result.map (fun r => r.status) = .ok "failed" ∧
        Event.waitReceipt .main ∈
          (redeem w sf env amount contractA tokenA recvOpt ownOpt decimals
            gasLimit).events)) := by
  refine ⟨?_, ?_, ?_, ?_, ?_, ?_⟩ <;> constructor <;> intro h
  · constructor <;> simp [send_eth, Except.map, hbEth, h]
  · constructor <;> simp [send_eth, Except.map, hbEth, h]
  · constructor <;> simp [send_erc20, Except.map, hbTok, h]
  · constructor <;> simp [send_erc20, Except.map, hbTok, h]
  · constructor <;> simp [approve_token, Except.map, h]
  · constructor <;> simp [approve_token, Except.map, h]
  · cases autoApprove with
    | false => constructor <;> simp [supply_to_aave, Except.map, hbTok, h]
    | true =>
      by_cases hal : (env.allowanceRaw : ℤ) < toBaseUnits amount decimals <;>
        constructor <;>
        simp [supply_to_aave, approve_token, ChainEnv.subEnv, Except.map,
          hbTok, hal, hstApp, h]
  · cases autoApprove with
    | false => constructor <;> simp [supply_to_aave, Except.map, hbTok, h]
    | true =>
      by_cases hal : (env.allowanceRaw : ℤ) < toBaseUnits amount decimals <;>
        constructor <;>
        simp [supply_to_aave, approve_token, ChainEnv.subEnv, Except.map,
          hbTok, hal, hstApp, h]
  · cases autoApprove with
    | false => constructor <;> simp [deposit, Except.map, hbTok, h]
    | true =>
      by_cases hal : (env.allowanceRaw : ℤ) < toBaseUnits amount decimals <;>
        constructor <;>
        simp [deposit, approve_token, ChainEnv.subEnv, Except.map, hbTok, hal,
          hstApp, h]
  · cases autoApprove with
    | false => constructor <;> simp [deposit, Except.map, hbTok, h]
    | true =>
      by_cases hal : (env.allowanceRaw : ℤ) < toBaseUnits amount decimals <;>
        constructor <;>
        simp [deposit, approve_token, ChainEnv.subEnv, Except.map, hbTok, hal,
          hstApp, h]
  · constructor <;> simp [redeem, Except.map, hbSh, h]
  · constructor <;> simp [redeem, Except.map, hbSh, h]

/-- Witness for C4 at concrete environments: a confirming receipt yields
status `"success"`, a reverting receipt yields `"failed"`, and in both
cases the trace contains the receipt wait. -/
theorem outcome_only_after_receipt_witness :
    ((send_eth w0 sf0 okEnv "0xTO" 1 none).result.map
        (fun r => r.status) = .ok "success" ∧
      Event.waitReceipt .main ∈
        (send_eth w0 sf0 okEnv "0xTO" 1 none).events) ∧
    ((send_eth w0 sf0 mainRevertEnv "0xTO" 1 none).result.map
        (fun r => r.status) = .ok "failed" ∧
      Event.waitReceipt .main ∈
        (send_eth w0 sf0 mainRevertEnv "0xTO" 1 none).events) ∧
    ((approve_token .main w0 sf0 okEnv.subEnv "0xTOK" "0xPOOL" none 6
        100000).result.map (fun r => r.status) = .ok "success" ∧
      Event.waitReceipt .main ∈
        (approve_token .main w0 sf0 okEnv.subEnv "0xTOK" "0xPOOL" none 6
          100000).events) ∧
    ((deposit w0 sf0 mainRevertEnv 1 "0xC" "0xTOK" none 6 500000
        true).result.map (fun r => r.status) = .ok "failed" ∧
      Event.waitReceipt .main ∈
        (deposit w0 sf0 mainRevertEnv 1 "0xC" "0xTOK" none 6 500000
          true).events) ∧
    ((redeem w0 sf0 okEnv 1 "0xC" "0xTOK" none none 6 500000).result.map
        (fun r => r.status) = .ok "success" ∧
      Event.waitReceipt .main ∈
        (redeem w0 sf0 okEnv 1 "0xC" "0xTOK" none none 6 500000).events) := by
  have hok := outcome_only_after_receipt w0 sf0 okEnv okEnv.subEnv "0xTO"
    "0xTOK" "0xPOOL" "0xASSET" "0xC" 1 none none none none none 0 6 500000
    true
    (by norm_num [okEnv, lowEnv])
    (by norm_num [okEnv, lowEnv, fromBaseUnits])
    (by norm_num [okEnv, lowEnv, pyInt])
    (by decide)
  have hrev := outcome_only_after_receipt w0 sf0 mainRevertEnv
    mainRevertEnv.subEnv "0xTO" "0xTOK" "0xPOOL" "0xASSET" "0xC" 1 none none
    none none none 0 6 500000 true
    (by norm_num [mainRevertEnv, okEnv, lowEnv])
    (by norm_num [mainRevertEnv, okEnv, lowEnv, fromBaseUnits])
    (by norm_num [mainRevertEnv, okEnv, lowEnv, pyInt])
    (by decide)
  exact ⟨hok.1.1 (by decide), hrev.1.2 (by decide), hok.2.2.1.1 (by decide),
    hrev.2.2.2.2.1.2 (by decide), hok.2.2.2.2.2.1 (by decide)⟩

/-- C8: everything an operation returns, logs, performs on the network, or
builds into a transaction's public fields is invariant under the account's
private key, for every signing function and every input: the key
influences only the signature handed to the network client, which appears
in no returned structure and no log line.  (The transaction hash is the
network's response to the broadcast, modelled as environment data.) -/
theorem private_key_never_in_output
    (network addr : String) (k1 k2 : ℕ) (sf : ℕ → UnsignedTx → ℕ)
    (env : ChainEnv) (se : SubEnv) (tag : OpTag)
    (toA tokenA poolA assetA contractA : String) (amount : ℚ)
    (gasPriceGwei amountOpt : Option ℚ)
    (onBehalfOf recvOpt ownOpt addrOpt : Option String)
    (referralCode decimals gasLimit : ℕ) (autoApprove : Bool) :
    get_balance ⟨network, addr, k1⟩ env addrOpt =
      get_balance ⟨network, addr, k2⟩ env addrOpt ∧
    send_eth ⟨network, addr, k1⟩ sf env toA amount gasPriceGwei =
      send_eth ⟨network, addr, k2⟩ sf env toA amount gasPriceGwei ∧
    send_erc20 ⟨network, addr, k1⟩ sf env tokenA toA amount decimals
        gasLimit =
      send_erc20 ⟨network, addr, k2⟩ sf env tokenA toA amount decimals
        gasLimit ∧
    approve_token tag ⟨network, addr, k1⟩ sf se tokenA poolA amountOpt
        decimals gasLimit =
      approve_token tag ⟨network, addr, k2⟩ sf se tokenA poolA amountOpt
        decimals gasLimit ∧
    supply_to_aave ⟨network, addr, k1⟩ sf env poolA assetA amount onBehalfOf
        referralCode decimals gasLimit autoApprove =
      supply_to_aave ⟨network, addr, k2⟩ sf env poolA assetA amount
        onBehalfOf referralCode decimals gasLimit autoApprove ∧
    deposit ⟨network, addr, k1⟩ sf env amount contractA tokenA recvOpt
        decimals gasLimit autoApprove =
      deposit ⟨network, addr, k2⟩ sf env amount contractA tokenA recvOpt
        decimals gasLimit autoApprove ∧
    redeem ⟨network, addr, k1⟩ sf env amount contractA tokenA recvOpt
        ownOpt decimals gasLimit =
      redeem ⟨network, addr, k2⟩ sf env amount contractA tokenA recvOpt
        ownOpt decimals gasLimit :=
  ⟨rfl, rfl, rfl, rfl, rfl, rfl, rfl⟩

/-- C9 counterexample: `WalletManager` has no per-Account mutual exclusion,
so the interleaving fetch₁, fetch₂, sign₁, send₁, sign₂, send₂ of two
concurrent send pipelines for the same account is schedulable — and under
the mock network that increments the nonce only after each send, both
pipelines complete with unsigned transactions carrying the same nonce 0. -/
theorem concurrent_requests_can_share_nonce :
    (runSchedule [true, false, true, true, false, false]
      initClients).p1.txNonce = some 0 ∧
    (runSchedule [true, false, true, true, false, false]
      initClients).p2.txNonce = some 0 ∧
    (runSchedule [true, false, true, true, false, false]
      initClients).p1.sent = true ∧
    (runSchedule [true, false, true, true, false, false]
      initClients).p2.sent = true := by
  decide

/-- C9 amended: the code itself contains no per-Account serialization, so
distinct nonces are guaranteed only when requests are serialized
externally: if one pipeline runs to completion before the other starts,
the two transactions carry distinct consecutive nonces, whereas an
unsynchronized interleaving can give both transactions the same nonce. -/
theorem nonce_distinct_only_when_serialized (n0 : ℕ) :
    (runSchedule [true, true, true, false, false, false]
      { chainNonce := n0, p1 := initPipeline,
        p2 := initPipeline }).p1.txNonce = some n0 ∧
    (runSchedule [true, true, true, false, false, false]
      { chainNonce := n0, p1 := initPipeline,
        p2 := initPipeline }).p2.txNonce = some (n0 + 1) ∧
    some n0 ≠ some (n0 + 1) ∧
    (runSchedule [true, false, true, true, false, false]
        initClients).p1.txNonce =
      (runSchedule [true, false, true, true, false, false]
        initClients).p2.txNonce := by
  refine ⟨rfl, rfl, by simp, by decide⟩

/-- C10: after a confirmed (status-1) receipt, the `shares` field returned
by `deposit` is the receiver's total vault share balance re-queried after
the transaction — not the amount minted by this deposit — and the
`assets_received` field returned by `redeem` is the receiver's total
underlying-token balance after the transaction divided by
`10 ** decimals`; when the post-transaction query raises, each field is
reported as 0. -/
theorem post_confirmation_totals
    (w : WalletSelf) (sf : ℕ → UnsignedTx → ℕ) (env : ChainEnv)
    (contractA tokenA : String) (assets shares : ℚ)
    (recvOpt ownOpt : Option String) (decimals gasLimit : ℕ)
    (autoApprove : Bool) (s b : ℕ)
    (hBal : ¬ fromBaseUnits env.tokenBalanceRaw decimals < assets)
    (hSh : ¬ (env.sharesBalanceRaw : ℤ) < pyInt shares)
    (hstApp : env.approveReceipt.status = 1)
    (hst : env.receipt.status = 1) :
    (env.postShares = some s →
      (deposit w sf env assets contractA tokenA recvOpt decimals gasLimit
        autoApprove).result.map (fun r => r.shares) = .ok s) ∧
    (env.postShares = none →
      (deposit w sf env assets contractA tokenA recvOpt decimals gasLimit
        autoApprove).result.map (fun r => r.shares) = .ok 0) ∧
    (env.postTokenBalance = some b →
      (redeem w sf env shares contractA tokenA recvOpt ownOpt decimals
        gasLimit).result.map (fun r => r.assetsReceived) =
        .ok (fromBaseUnits b decimals)) ∧
    (env.postTokenBalance = none →
      (redeem w sf env shares contractA tokenA recvOpt ownOpt decimals
        gasLimit).result.map (fun r => r.assetsReceived) = .ok 0) := by
  refine ⟨?_, ?_, ?_, ?_⟩ <;> intro hp
  · cases autoApprove with
    | false => simp [deposit, Except.map, hBal, hst, hp]
    | true =>
      by_cases hal : (env.allowanceRaw : ℤ) < toBaseUnits assets decimals <;>
        simp [deposit, approve_token, ChainEnv.subEnv, Except.map, hBal,
          hal, hstApp, hst, hp]
  · cases autoApprove with
    | false => simp [deposit, Except.map, hBal, hst, hp]
    | true =>
      by_cases hal : (env.allowanceRaw : ℤ) < toBaseUnits assets decimals <;>
        simp [deposit, approve_token, ChainEnv.subEnv, Except.map, hBal,
          hal, hstApp, hst, hp]
  · simp [redeem, Except.map, hSh, hst, hp]
  · simp [redeem, Except.map, hSh, hst, hp]

/-- Witness for C10: at `okEnv` the vault reports 42 total shares and the
token reports 1000 base units (0.001 with 6 decimals) after confirmation;
at `noPostEnv` both post-transaction queries raise and the fields are 0. -/
theorem post_confirmation_totals_witness :
    (deposit w0 sf0 okEnv 1 "0xC" "0xTOK" none 6 500000 true).result.map
      (fun r => r.shares) = .ok 42 ∧
    (deposit w0 sf0 noPostEnv 1 "0xC" "0xTOK" none 6 500000 true).result.map
      (fun r => r.shares) = .ok 0 ∧
    (redeem w0 sf0 okEnv 1 "0xC" "0xTOK" none none 6 500000).result.map
      (fun r => r.assetsReceived) = .ok ((1 : ℚ) / 1000) ∧
    (redeem w0 sf0 noPostEnv 1 "0xC" "0xTOK" none none 6 500000).result.map
      (fun r => r.assetsReceived) = .ok 0 := by
  have hok := post_confirmation_totals w0 sf0 okEnv "0xC" "0xTOK" 1 1 none
    none 6 500000 true 42 1000
    (by norm_num [okEnv, lowEnv, fromBaseUnits])
    (by norm_num [okEnv, lowEnv, pyInt])
    (by decide) (by decide)
  have hnp := post_confirmation_totals w0 sf0 noPostEnv "0xC" "0xTOK" 1 1
    none none 6 500000 true 42 1000
    (by norm_num [noPostEnv, okEnv, lowEnv, fromBaseUnits])
    (by norm_num [noPostEnv, okEnv, lowEnv, pyInt])
    (by decide) (by decide)
  have hc := hok.2.2.1 (by decide)
  norm_num [fromBaseUnits] at hc
  exact ⟨hok.1 (by decide), hnp.2.1 (by decide), hc,
    hnp.2.2.2 (by decide)⟩
